import Mathlib

/-!
Shallow embedding of the playlist-synchronization and playback logic of the
telegram-music-bot repository (src/server.js with the serverless variants in
src/functions/api.js), together with proofs about the spec's claims.

Conventions of the embedding:
* JavaScript numbers that hold message ids and lengths are modelled as `Nat`;
  the playback cursor `currentIndex` is an `Int` (JS `%` is truncated
  remainder, modelled by `Int.tmod`).
* A JS value that may be `undefined`/absent is an `Option`; JS string
  truthiness (empty string is falsy) is handled by `strTruthy`.
* Provider (Telegram) calls are an explicit environment `Env`: a call that
  throws is modelled by the corresponding `Option` being `none` (or carrying
  the thrown error message as a `String`).
* Timestamp fields (`uploadDate`, `lastUpdated`) are omitted: they come from
  the wall clock and no claim mentions them.
* `parseInt` returning `NaN` is modelled as `none`; the JS comparisons
  `NaN >= 0` / `NaN < n` (both false) are `jsGe`/`jsLt` on `Option Int`.
-/

namespace MusicBot

/-- JS string truthiness: `undefined` and the empty string are falsy. -/
def strTruthy : Option String → Option String
  | none => none
  | some s => if s = "" then none else some s

/-- JS `a || b` over possibly-absent strings. -/
def jsStrOr (a b : Option String) : Option String :=
  match strTruthy a with
  | some s => some s
  | none => strTruthy b

/-- Prefix test on character lists (structural, so the kernel can evaluate
it on literals). -/
def hasPrefixCL : List Char → List Char → Bool
  | [], _ => true
  | _ :: _, [] => false
  | p :: ps, c :: cs => p = c && hasPrefixCL ps cs

/-- Occurrence of `pat` as a contiguous run inside `s`. -/
def occursCL (pat : List Char) : List Char → Bool
  | [] => hasPrefixCL pat []
  | c :: cs => hasPrefixCL pat (c :: cs) || occursCL pat cs

/-- JS `String.prototype.includes`: substring test. -/
def containsSub (s pat : String) : Bool :=
  occursCL pat.toList s.toList

/-- Error classification of src/server.js:1334-1336: an error message is in the
"not found / invalid id" class when it contains one of three fixed needles. -/
def isNotFoundClass (e : String) : Bool :=
  containsSub e "message not found" ||
  containsSub e "MESSAGE_ID_INVALID" ||
  containsSub e "message to forward not found"

/-- Suffix test on character lists. -/
def hasSuffixCL (pat s : List Char) : Bool :=
  hasPrefixCL pat.reverse s.reverse

/-- The audio-extension regex `/\.(mp3|wav|ogg|m4a|flac|aac|mp4)$/i` of
src/server.js:1446: case-insensitive suffix test. -/
def hasAudioExt (name : String) : Bool :=
  [".mp3", ".wav", ".ogg", ".m4a", ".flac", ".aac", ".mp4"].any
    (fun ext => hasSuffixCL ext.toList (name.toList.map Char.toLower))

/-- JS `(n).toString().padStart(2, '0')` for `n < 100`. -/
def pad2 (n : Nat) : String :=
  if n < 10 then "0" ++ toString n else toString n

/-- Duration formatting of src/server.js:1455: `M:SS`, `'Unknown'` when the
provider duration is absent or `0` (JS falsy). -/
def fmtDuration (d : Nat) : String :=
  if d = 0 then "Unknown" else toString (d / 60) ++ ":" ++ pad2 (d % 60)

/-- Payload metadata of a message attachment as the scanner reads it
(`audio`/`voice`/`document` object of the Telegram message). -/
structure AudioFile where
  title : Option String
  fileName : Option String
  performer : Option String
  mimeType : Option String
  duration : Nat
  fileId : String
deriving DecidableEq

/-- A forwarded message as seen by the Phase-B scanner
(src/server.js:1434-1447): the three attachment slots it inspects. -/
structure FwdMsg where
  audio : Option AudioFile
  voice : Option AudioFile
  document : Option AudioFile
deriving DecidableEq

/-- One playlist entry (the objects stored in `musicFiles`).
`messageId = 0` encodes a missing/falsy `messageId` (JS `!track.messageId`
conflates `0`, `undefined` and `null`; real Telegram ids are ≥ 1). -/
structure Track where
  title : String
  url : String
  duration : String
  fileId : String
  performer : String
  messageId : Nat
deriving DecidableEq

/-- The provider environment one sync pass runs against.
A `none`/`some errMsg` encodes the corresponding bot call throwing. -/
structure Env where
  /-- `bot.forwardMessage('@username', CHANNEL_ID, id)` (Phase-A probe,
  src/server.js:1322): `none` = resolves, `some e` = throws with message `e`. -/
  probeA : Nat → Option String
  /-- `bot.sendMessage(CHANNEL_ID, '🔍 Scanning...')` (src/server.js:1409):
  the message id the provider assigns, `none` = throws. -/
  sendProbe : Option Nat
  /-- `bot.deleteMessage` of the temporary probe (src/server.js:1417):
  `false` = throws. -/
  deleteProbeOk : Bool
  /-- `bot.forwardMessage(CHANNEL_ID, CHANNEL_ID, id)` (Phase-B probe,
  src/server.js:1434): the forwarded message, `none` = throws. -/
  forwardB : Nat → Option FwdMsg
  /-- `bot.getFileLink(fileId)`: the resolved URL, `none` = throws. -/
  getFileLink : String → Option String
  /-- `storage.loadPersistedMusic()` of src/functions/api.js:198: the stored
  record `{musicFiles, currentIndex}`, `none` = absent or load error. -/
  storedData : Option (List Track × Int)

/-- The mutable module state of src/server.js: `musicFiles`, `currentIndex`,
`currentPosition`. The durable copy is written through on every save, so it
always equals `musicFiles`/`currentIndex` here. -/
structure SyncState where
  musicFiles : List Track
  currentIndex : Int
  currentPosition : Int
deriving DecidableEq

/-- The Sync Outcome object returned by `validateAndSyncByMessageIds`
(src/server.js:1379-1394). -/
structure SyncResult where
  success : Bool
  tracksRemoved : Nat
  tracksAdded : Nat
  totalTracks : Nat
  removedTracks : List String
  validationErrors : Nat
  errMsg : Option String
deriving DecidableEq

/-- Phase-A verdict for one cached track (src/server.js:1310-1345). -/
inductive Verdict where
  | live
  | stale
  | unverifiable
deriving DecidableEq

/-- Phase-A branch structure of src/server.js:1310-1345: no `messageId` or a
successful probe keeps the track; a not-found-class error removes it; any
other error keeps it and counts a validation error. -/
def classifyTrack (env : Env) (t : Track) : Verdict :=
  if t.messageId = 0 then .live
  else
    match env.probeA t.messageId with
    | none => .live
    | some e => if isNotFoundClass e then .stale else .unverifiable

/-- Phase-A retained tracks (`validTracks` of src/server.js:1304), in input
order. -/
def phaseAValid (env : Env) (ts : List Track) : List Track :=
  ts.filter (fun t => !(classifyTrack env t == .stale))

/-- Phase-A removed tracks (`removedTracks` of src/server.js:1305). -/
def phaseARemoved (env : Env) (ts : List Track) : List Track :=
  ts.filter (fun t => classifyTrack env t == .stale)

/-- Phase-A `validationErrors` counter (src/server.js:1343). -/
def phaseAErrors (env : Env) (ts : List Track) : Nat :=
  (ts.filter (fun t => classifyTrack env t == .unverifiable)).length

/-- The `existingMessageIds` set of src/server.js:1404: message ids of the
given tracks, JS-falsy (`0`) ones dropped. -/
def existingMessageIds (ts : List Track) : List Nat :=
  (ts.map (fun t => t.messageId)).filter (fun i => i ≠ 0)

/-- Attachment selection `messageInfo.audio || messageInfo.voice ||
messageInfo.document` (src/server.js:1442). -/
def audioPayload (m : FwdMsg) : Option AudioFile :=
  (m.audio.orElse fun _ => m.voice).orElse fun _ => m.document

/-- Audio classification of src/server.js:1445-1447: audio MIME type, or an
audio file extension, or the message-level `audio` field. -/
def isAudioFileCheck (m : FwdMsg) (af : AudioFile) : Bool :=
  (match af.mimeType with | some s => containsSub s "audio" | none => false) ||
  (match af.fileName with | some n => hasAudioExt n | none => false) ||
  m.audio.isSome

/-- Track construction of src/server.js:1452-1460. `n` is `newTracks.length`
at construction time (used by the synthesized `Music N` title). -/
def mkScanTrack (url : String) (af : AudioFile) (msgId n : Nat) : Track :=
  { title := (jsStrOr af.title (jsStrOr af.fileName af.performer)).getD
      ("Music " ++ toString (n + 1))
  , url := url
  , duration := fmtDuration af.duration
  , fileId := af.fileId
  , performer := (strTruthy af.performer).getD "Unknown Artist"
  , messageId := msgId }

/-- The probe-and-classify part of one Phase-B loop iteration
(src/server.js:1431-1467), independent of the skip set: the payload and
resolved URL when the id yields a new track, `none` otherwise. -/
def acceptContent (env : Env) (msgId : Nat) : Option (AudioFile × String) :=
  match env.forwardB msgId with
  | none => none
  | some fwd =>
    match audioPayload fwd with
    | none => none
    | some af =>
      if isAudioFileCheck fwd af then
        match env.getFileLink af.fileId with
        | none => none
        | some url => some (af, url)
      else none

/-- One Phase-B loop iteration including the `existingMessageIds` skip
(src/server.js:1427-1429). -/
def acceptId (env : Env) (existingIds : List Nat) (msgId : Nat) :
    Option (AudioFile × String) :=
  if existingIds.contains msgId then none else acceptContent env msgId

/-- Fold step of the Phase-B loop: append the discovered track, if any. -/
def scanStep (env : Env) (existingIds : List Nat) (acc : List Track)
    (msgId : Nat) : List Track :=
  match acceptId env existingIds msgId with
  | none => acc
  | some (af, url) => acc ++ [mkScanTrack url af msgId acc.length]

/-- The id sequence of the scan loop `for (msgId = head-1; msgId > 0 &&
scanCount < maxScanCount; msgId--)` (src/server.js:1423): `scanIdsFrom m c`
counts down from `m` for at most `c` steps, stopping at `0`. -/
def scanIdsFrom : Nat → Nat → List Nat
  | _, 0 => []
  | 0, _ + 1 => []
  | m + 1, c + 1 => (m + 1) :: scanIdsFrom m c

/-- `maxScanCount` of src/server.js:1420. -/
def maxScanCount : Nat := 50

/-- `scanForNewMessages` (src/server.js:1399-1495). Every failure inside it
is caught: a failing probe send or probe delete makes the whole scan yield
the empty batch (the `scanError` handler at src/server.js:1484-1486), and a
failing per-id forward just skips that id. -/
def scanForNewMessages (env : Env) (existingTracks : List Track) :
    List Track :=
  match env.sendProbe with
  | none => []
  | some head =>
    if env.deleteProbeOk then
      (scanIdsFrom (head - 1) maxScanCount).foldl
        (scanStep env (existingMessageIds existingTracks)) []
    else []

/-- `validateAndSyncByMessageIds` (src/server.js:1300-1396): Phase A over the
current playlist, Phase B scan seeded with the retained tracks, merge,
bounds-reset of `currentIndex`, and the Sync Outcome. The write-through save
is the state update itself. -/
def validateAndSyncByMessageIds (env : Env) (st : SyncState) :
    SyncState × SyncResult :=
  let valid := phaseAValid env st.musicFiles
  let removed := phaseARemoved env st.musicFiles
  let newTracks := scanForNewMessages env valid
  let finalTracks := valid ++ newTracks
  let newIndex :=
    if st.currentIndex ≥ (finalTracks.length : Int) then 0 else st.currentIndex
  ({ st with musicFiles := finalTracks, currentIndex := newIndex },
   { success := true
   , tracksRemoved := removed.length
   , tracksAdded := newTracks.length
   , totalTracks := finalTracks.length
   , removedTracks := removed.map (fun t => t.title)
   , validationErrors := phaseAErrors env st.musicFiles
   , errMsg := none })

instance : Inhabited Track :=
  ⟨{ title := "", url := "", duration := "", fileId := "", performer := ""
   , messageId := 0 }⟩

/-- JS `a >= b` where `a` may be `NaN` (`none`): any comparison with `NaN`
is false. -/
def jsGe (a : Option Int) (b : Int) : Bool :=
  match a with
  | none => false
  | some x => b ≤ x

/-- JS `a < b` where `a` may be `NaN` (`none`). -/
def jsLt (a : Option Int) (b : Int) : Bool :=
  match a with
  | none => false
  | some x => x < b

/-- Digit-list to number accumulator for `parseIntJs`. -/
def natOfDigits (ds : List Char) : Nat :=
  ds.foldl (fun acc c => acc * 10 + (c.toNat - '0'.toNat)) 0

/-- Leading-whitespace test for `parseIntJs`. -/
def isWsChar (c : Char) : Bool :=
  c = ' ' || c = '\t' || c = '\n' || c = '\r'

/-- JS `parseInt` (radix 10 shape): skip whitespace, optional sign, read the
leading run of decimal digits; `NaN` (here `none`) when that run is empty. -/
def parseIntJs (s : String) : Option Int :=
  match s.toList.dropWhile isWsChar with
  | '-' :: rest =>
    let ds := rest.takeWhile Char.isDigit
    if ds.isEmpty then none else some (-(natOfDigits ds : Int))
  | '+' :: rest =>
    let ds := rest.takeWhile Char.isDigit
    if ds.isEmpty then none else some ((natOfDigits ds : Int))
  | cs =>
    let ds := cs.takeWhile Char.isDigit
    if ds.isEmpty then none else some ((natOfDigits ds : Int))

/-- Response of the server `/api/next` and `/api/previous` handlers:
`{success: true, index}` unconditionally (src/server.js:1208,1216). -/
structure SimpleResp where
  success : Bool
  index : Int
deriving DecidableEq

/-- Server `/api/next` (src/server.js:1203-1209). JS `%` is truncated
remainder, hence `Int.tmod`. -/
def nextServer (st : SyncState) : SyncState × SimpleResp :=
  if 0 < st.musicFiles.length then
    let st1 := { st with
      currentIndex := (st.currentIndex + 1).tmod (st.musicFiles.length : Int)
      currentPosition := 0 }
    (st1, { success := true, index := st1.currentIndex })
  else (st, { success := true, index := st.currentIndex })

/-- Server `/api/previous` (src/server.js:1211-1217). -/
def prevServer (st : SyncState) : SyncState × SimpleResp :=
  if 0 < st.musicFiles.length then
    let st1 := { st with
      currentIndex :=
        if 0 < st.currentIndex then st.currentIndex - 1
        else (st.musicFiles.length : Int) - 1
      currentPosition := 0 }
    (st1, { success := true, index := st1.currentIndex })
  else (st, { success := true, index := st.currentIndex })

/-- Lazy URL resolution `if (!track.url && track.fileId) track.url = await
bot.getFileLink(...)` (src/server.js:1230-1237); a failing resolution keeps
the track unchanged. -/
def patchUrl (env : Env) (t : Track) : Track :=
  if t.url = "" ∧ t.fileId ≠ "" then
    match env.getFileLink t.fileId with
    | some u => { t with url := u }
    | none => t
  else t

/-- Response of the select-track handlers: `{success:true, index, track,
position}` or HTTP 400 `{success:false, error:'Invalid track index',
maxIndex}` (src/server.js:1240-1251). -/
inductive PlayResp where
  | ok (index : Int) (track : Track) (position : Int)
  | invalidIndex (maxIndex : Int)
deriving DecidableEq

/-- Server `/api/play/:index` (src/server.js:1220-1253), after `parseInt`:
the argument is `none` when the path parameter parsed to `NaN`. -/
def playServer (env : Env) (st : SyncState) (idx : Option Int) :
    SyncState × PlayResp :=
  if (0 < st.musicFiles.length) && jsGe idx 0 &&
      jsLt idx (st.musicFiles.length : Int) then
    let i := (idx.getD 0).toNat
    let t1 := patchUrl env (st.musicFiles.getD i default)
    let st1 := { st with
      musicFiles := st.musicFiles.set i t1
      currentIndex := idx.getD 0
      currentPosition := 0 }
    (st1, .ok st1.currentIndex t1 0)
  else (st, .invalidIndex ((st.musicFiles.length : Int) - 1))

/-- Server `/api/play/:index` from the raw path string. -/
def playServerStr (env : Env) (st : SyncState) (s : String) :
    SyncState × PlayResp :=
  playServer env st (parseIntJs s)

/-- `initializeMusic` of src/functions/api.js:239-260: load the stored record
into the module state; when nothing loads (or the loaded list is empty) fall
back to `loadChannelMusic`, which sets the list empty. A loaded record
overwrites `currentIndex` even when its track list is empty. -/
def initializeMusic (env : Env) (st : SyncState) : SyncState :=
  match env.storedData with
  | some (files, idx) =>
    let st1 := { st with musicFiles := files, currentIndex := idx }
    if 0 < st1.musicFiles.length then st1 else { st1 with musicFiles := [] }
  | none => { st with musicFiles := [] }

/-- The `if (musicFiles.length === 0) await initializeMusic()` prologue every
serverless handler runs (e.g. src/functions/api.js:320-322). -/
def apiBootstrap (env : Env) (st : SyncState) : SyncState :=
  if st.musicFiles.isEmpty then initializeMusic env st else st

/-- Response of the serverless `/next` handler: the advanced track, or HTTP
404 `{success:false, error:'No tracks available'}`
(src/functions/api.js:342-348). -/
inductive ApiNextResp where
  | ok (track : Track) (index : Int)
  | noTracks
deriving DecidableEq

/-- Serverless `/next` (src/functions/api.js:318-354). -/
def apiNext (env : Env) (st : SyncState) : SyncState × ApiNextResp :=
  let st1 := apiBootstrap env st
  if 0 < st1.musicFiles.length then
    let st2 := { st1 with
      currentIndex := (st1.currentIndex + 1).tmod (st1.musicFiles.length : Int)
      currentPosition := 0 }
    let i := st2.currentIndex.toNat
    let t1 := patchUrl env (st2.musicFiles.getD i default)
    let st3 := { st2 with musicFiles := st2.musicFiles.set i t1 }
    (st3, .ok t1 st3.currentIndex)
  else (st1, .noTracks)

/-- Serverless `/track/:index` (src/functions/api.js:396-439), after
`parseInt`. Unlike the server variant there is no `length > 0` conjunct. -/
def apiSetTrack (env : Env) (st : SyncState) (idx : Option Int) :
    SyncState × PlayResp :=
  let st1 := apiBootstrap env st
  if jsGe idx 0 && jsLt idx (st1.musicFiles.length : Int) then
    let i := (idx.getD 0).toNat
    let t1 := patchUrl env (st1.musicFiles.getD i default)
    let st2 := { st1 with
      musicFiles := st1.musicFiles.set i t1
      currentIndex := idx.getD 0
      currentPosition := 0 }
    (st2, .ok st2.currentIndex t1 0)
  else (st1, .invalidIndex ((st1.musicFiles.length : Int) - 1))

/-- Serverless `/track/:index` from the raw path string. -/
def apiSetTrackStr (env : Env) (st : SyncState) (s : String) :
    SyncState × PlayResp :=
  apiSetTrack env st (parseIntJs s)

/-- One playlist-mutating operation, for stating the bounded-index
invariant: the three playback calls and a Synchronizer merge. Each carries
the provider environment it runs against. -/
inductive PlayerOp where
  | next
  | previous
  | selectIndex (env : Env) (idx : Option Int)
  | sync (env : Env)

/-- State transition of one operation (server handlers). -/
def stepOp (st : SyncState) : PlayerOp → SyncState
  | .next => (nextServer st).1
  | .previous => (prevServer st).1
  | .selectIndex env idx => (playServer env st idx).1
  | .sync env => (validateAndSyncByMessageIds env st).1

/-- Run a sequence of operations. -/
def runOps (st : SyncState) (ops : List PlayerOp) : SyncState :=
  ops.foldl stepOp st

/-- The bounded-index property: `0 ≤ currentIndex < length`, or
`currentIndex = 0` on the empty playlist. -/
def IndexInv (st : SyncState) : Prop :=
  (0 ≤ st.currentIndex ∧ st.currentIndex < (st.musicFiles.length : Int)) ∨
  (st.musicFiles = [] ∧ st.currentIndex = 0)

/-! Basic lemmas about the embedded definitions. -/

theorem mkScanTrack_messageId (url : String) (af : AudioFile) (msgId n : Nat) :
    (mkScanTrack url af msgId n).messageId = msgId := rfl

theorem acceptId_isSome_contains {env : Env} {ex : List Nat} {i : Nat}
    (h : (acceptId env ex i).isSome) : ex.contains i = false := by
  unfold acceptId at h
  by_cases hc : i ∈ ex
  · simp [hc] at h
  · simpa using hc

theorem acceptId_of_not_contains {env : Env} {ex : List Nat} {i : Nat}
    (h : ex.contains i = false) : acceptId env ex i = acceptContent env i := by
  have hm : ¬ i ∈ ex := by simpa using h
  unfold acceptId
  simp [hm]

theorem acceptContent_isSome_forwardB {env : Env} {i : Nat}
    (h : (acceptContent env i).isSome) : (env.forwardB i).isSome := by
  unfold acceptContent at h
  cases hf : env.forwardB i with
  | none => simp [hf] at h
  | some fwd => rfl

theorem acceptId_isSome_forwardB {env : Env} {ex : List Nat} {i : Nat}
    (h : (acceptId env ex i).isSome) : (env.forwardB i).isSome := by
  have hc := acceptId_isSome_contains h
  rw [acceptId_of_not_contains hc] at h
  exact acceptContent_isSome_forwardB h

theorem scanStep_map_messageId (env : Env) (ex : List Nat) (acc : List Track)
    (i : Nat) :
    (scanStep env ex acc i).map (fun t => t.messageId) =
      acc.map (fun t => t.messageId) ++
        (if (acceptId env ex i).isSome then [i] else []) := by
  unfold scanStep
  cases h : acceptId env ex i with
  | none => simp [h]
  | some p =>
    cases p with
    | mk af url => simp [h, mkScanTrack]

theorem scanFold_map_messageId (env : Env) (ex : List Nat) :
    ∀ (ids : List Nat) (acc : List Track),
      (ids.foldl (scanStep env ex) acc).map (fun t => t.messageId) =
        acc.map (fun t => t.messageId) ++
          ids.filter (fun i => (acceptId env ex i).isSome)
  | [], acc => by simp
  | i :: ids, acc => by
    rw [List.foldl_cons, scanFold_map_messageId env ex ids,
      scanStep_map_messageId]
    by_cases h : (acceptId env ex i).isSome <;>
      simp [h, List.filter_cons]

theorem scanFold_eq_of_none (env : Env) (ex : List Nat) :
    ∀ (ids : List Nat) (acc : List Track),
      (∀ i ∈ ids, acceptId env ex i = none) →
      ids.foldl (scanStep env ex) acc = acc
  | [], acc, _ => rfl
  | i :: ids, acc, h => by
    rw [List.foldl_cons]
    have hi : acceptId env ex i = none := h i (by simp)
    have hstep : scanStep env ex acc i = acc := by
      unfold scanStep; simp [hi]
    rw [hstep]
    exact scanFold_eq_of_none env ex ids acc (fun j hj => h j (by simp [hj]))

theorem mem_scanIdsFrom : ∀ {m c x : Nat}, x ∈ scanIdsFrom m c →
    1 ≤ x ∧ x ≤ m
  | _, 0, x => by simp [scanIdsFrom]
  | 0, _ + 1, x => by simp [scanIdsFrom]
  | m + 1, c + 1, x => by
    intro hx
    simp only [scanIdsFrom, List.mem_cons] at hx
    rcases hx with rfl | hx
    · omega
    · have := mem_scanIdsFrom hx
      omega

theorem scanIdsFrom_pairwise :
    ∀ (m c : Nat), (scanIdsFrom m c).Pairwise (fun a b => b < a)
  | _, 0 => by simp [scanIdsFrom]
  | 0, _ + 1 => by simp [scanIdsFrom]
  | m + 1, c + 1 => by
    simp only [scanIdsFrom]
    refine List.Pairwise.cons ?_ (scanIdsFrom_pairwise m c)
    intro x hx
    have := mem_scanIdsFrom hx
    omega

theorem scanIdsFrom_nodup (m c : Nat) : (scanIdsFrom m c).Nodup :=
  (scanIdsFrom_pairwise m c).imp (fun h => by omega)

theorem existingMessageIds_nil : existingMessageIds [] = [] := rfl

theorem existingMessageIds_append (a b : List Track) :
    existingMessageIds (a ++ b) =
      existingMessageIds a ++ existingMessageIds b := by
  unfold existingMessageIds
  rw [List.map_append, List.filter_append]

theorem phaseAValid_sublist (env : Env) (ts : List Track) :
    (phaseAValid env ts).Sublist ts :=
  List.filter_sublist ts

theorem mem_phaseAValid {env : Env} {ts : List Track} {t : Track} :
    t ∈ phaseAValid env ts ↔ t ∈ ts ∧ classifyTrack env t ≠ .stale := by
  unfold phaseAValid
  rw [List.mem_filter]
  constructor
  · rintro ⟨h1, h2⟩
    refine ⟨h1, ?_⟩
    intro hc
    simp [hc] at h2
  · rintro ⟨h1, h2⟩
    refine ⟨h1, ?_⟩
    simpa using h2

theorem phaseAValid_eq_self {env : Env} {ts : List Track}
    (h : ∀ t ∈ ts, classifyTrack env t ≠ .stale) : phaseAValid env ts = ts := by
  unfold phaseAValid
  rw [List.filter_eq_self]
  intro t ht
  simpa using h t ht

theorem phaseARemoved_eq_nil {env : Env} {ts : List Track}
    (h : ∀ t ∈ ts, classifyTrack env t ≠ .stale) :
    phaseARemoved env ts = [] := by
  unfold phaseARemoved
  rw [List.filter_eq_nil_iff]
  intro t ht
  simpa using h t ht

theorem scanForNewMessages_eq_foldl {env : Env} {head : Nat}
    (hs : env.sendProbe = some head) (hd : env.deleteProbeOk = true)
    (ts : List Track) :
    scanForNewMessages env ts =
      (scanIdsFrom (head - 1) maxScanCount).foldl
        (scanStep env (existingMessageIds ts)) [] := by
  unfold scanForNewMessages
  rw [hs]
  simp [hd]

theorem scanForNewMessages_eq_nil_of_sendProbe {env : Env}
    (hs : env.sendProbe = none) (ts : List Track) :
    scanForNewMessages env ts = [] := by
  unfold scanForNewMessages
  rw [hs]

theorem scanForNewMessages_eq_nil_of_delete {env : Env}
    (hd : env.deleteProbeOk = false) (ts : List Track) :
    scanForNewMessages env ts = [] := by
  unfold scanForNewMessages
  cases hs : env.sendProbe <;> simp [hd]

theorem scanForNewMessages_map_messageId {env : Env} {head : Nat}
    (hs : env.sendProbe = some head) (hd : env.deleteProbeOk = true)
    (ts : List Track) :
    (scanForNewMessages env ts).map (fun t => t.messageId) =
      (scanIdsFrom (head - 1) maxScanCount).filter
        (fun i => (acceptId env (existingMessageIds ts) i).isSome) := by
  rw [scanForNewMessages_eq_foldl hs hd, scanFold_map_messageId]
  simp

theorem mem_scan_acceptId {env : Env} {ts : List Track} {t : Track}
    (ht : t ∈ scanForNewMessages env ts) :
    (acceptId env (existingMessageIds ts) t.messageId).isSome := by
  cases hs : env.sendProbe with
  | none =>
    rw [scanForNewMessages_eq_nil_of_sendProbe hs] at ht
    simp at ht
  | some head =>
    by_cases hd : env.deleteProbeOk
    · have hmem : t.messageId ∈
          (scanForNewMessages env ts).map (fun t => t.messageId) :=
        List.mem_map_of_mem _ ht
      rw [scanForNewMessages_map_messageId hs hd] at hmem
      simpa using List.of_mem_filter hmem
    · rw [scanForNewMessages_eq_nil_of_delete (by simpa using hd)] at ht
      simp at ht

theorem sync_musicFiles (env : Env) (st : SyncState) :
    (validateAndSyncByMessageIds env st).1.musicFiles =
      phaseAValid env st.musicFiles ++
        scanForNewMessages env (phaseAValid env st.musicFiles) := rfl

theorem sync_tracksAdded (env : Env) (st : SyncState) :
    (validateAndSyncByMessageIds env st).2.tracksAdded =
      (scanForNewMessages env (phaseAValid env st.musicFiles)).length := rfl

theorem sync_tracksRemoved (env : Env) (st : SyncState) :
    (validateAndSyncByMessageIds env st).2.tracksRemoved =
      (phaseARemoved env st.musicFiles).length := rfl

theorem sync_removedTitles (env : Env) (st : SyncState) :
    (validateAndSyncByMessageIds env st).2.removedTracks =
      (phaseARemoved env st.musicFiles).map (fun t => t.title) := rfl

theorem sync_success (env : Env) (st : SyncState) :
    (validateAndSyncByMessageIds env st).2.success = true := rfl

theorem sync_validationErrors (env : Env) (st : SyncState) :
    (validateAndSyncByMessageIds env st).2.validationErrors =
      phaseAErrors env st.musicFiles := rfl

/-! Shared sample data for concrete scenarios. -/

/-- A sample audio payload with an audio MIME type and file id `F`. -/
def sampleAudioF : AudioFile :=
  { title := some "Song", fileName := none, performer := none
  , mimeType := some "audio/mpeg", duration := 125, fileId := "F" }

/-- A channel message carrying `sampleAudioF` in its `audio` slot. -/
def sampleFwdF : FwdMsg :=
  { audio := some sampleAudioF, voice := none, document := none }

/-- A cached track discovered at message id 10. -/
def trackA : Track :=
  { title := "A", url := "uA", duration := "3:00", fileId := "fA"
  , performer := "P", messageId := 10 }

/-- A cached track discovered at message id 11. -/
def trackB : Track :=
  { title := "B", url := "uB", duration := "3:10", fileId := "fB"
  , performer := "P", messageId := 11 }

/-- The empty player state. -/
def emptyState : SyncState :=
  { musicFiles := [], currentIndex := 0, currentPosition := 0 }

/-- An environment where every provider call succeeds trivially or finds
nothing: probes resolve, the probe send throws, no message forwards. -/
def quietEnv : Env :=
  { probeA := fun _ => none
  , sendProbe := none
  , deleteProbeOk := true
  , forwardB := fun _ => none
  , getFileLink := fun _ => none
  , storedData := none }

/-- The discovery scenario of the spec: probe head id 100, audio found while
scanning at ids 97 and 95, both posts carrying the same file `F`. -/
def envScan100 : Env :=
  { quietEnv with
    sendProbe := some 100
  , forwardB := fun i => if i = 97 ∨ i = 95 then some sampleFwdF else none
  , getFileLink := fun f => if f = "F" then some "http://x" else none }

/-- C1, counterexample: a Synchronizer pass starting from the empty playlist,
with head id 100 and live audio posts at ids 97 and 95 that carry the same
file `F`, produces a playlist whose two tracks share the non-empty
`fileId = "F"` — the `sourceRef` half of the claimed invariant fails, while
the `originMessageId`s (97, 95) stay distinct. -/
theorem sync_sourceRef_unique_cex :
    ((validateAndSyncByMessageIds envScan100 emptyState).1.musicFiles.map
        (fun t => t.fileId)) = ["F", "F"] ∧
    ((validateAndSyncByMessageIds envScan100 emptyState).1.musicFiles.map
        (fun t => t.messageId)) = [97, 95] ∧
    ¬ ((validateAndSyncByMessageIds envScan100 emptyState).1.musicFiles.map
        (fun t => t.fileId)).Nodup := by
  refine ⟨by decide, by decide, by decide⟩

/-- C1, amended: a Synchronizer pass preserves uniqueness of the non-empty
`originMessageId`s — if no two tracks of the input playlist share a non-empty
`messageId`, no two tracks of the output playlist do. (Uniqueness of
non-empty `fileId`s is not guaranteed, see the counterexample.) -/
theorem sync_messageId_unique (env : Env) (st : SyncState)
    (h : (existingMessageIds st.musicFiles).Nodup) :
    (existingMessageIds
      (validateAndSyncByMessageIds env st).1.musicFiles).Nodup := by
  rw [sync_musicFiles, existingMessageIds_append]
  have hvsub : (existingMessageIds (phaseAValid env st.musicFiles)).Sublist
      (existingMessageIds st.musicFiles) := by
    unfold existingMessageIds
    exact ((phaseAValid_sublist env st.musicFiles).map _).filter _
  have hnodupA : (existingMessageIds (phaseAValid env st.musicFiles)).Nodup :=
    h.sublist hvsub
  cases hs : env.sendProbe with
  | none =>
    rw [scanForNewMessages_eq_nil_of_sendProbe hs]
    simpa [existingMessageIds_nil] using hnodupA
  | some head =>
    by_cases hd : env.deleteProbeOk
    · have hmap := scanForNewMessages_map_messageId hs hd
        (phaseAValid env st.musicFiles)
      have hnodupB : (existingMessageIds
          (scanForNewMessages env (phaseAValid env st.musicFiles))).Nodup := by
        unfold existingMessageIds
        rw [hmap]
        exact ((scanIdsFrom_nodup _ _).filter _).filter _
      rw [List.nodup_append]
      refine ⟨hnodupA, hnodupB, ?_⟩
      intro x hx hxB
      have hx1 : x ∈ (scanForNewMessages env
          (phaseAValid env st.musicFiles)).map (fun t => t.messageId) :=
        List.mem_of_mem_filter hxB
      rw [hmap] at hx1
      have hp : (acceptId env
          (existingMessageIds (phaseAValid env st.musicFiles)) x).isSome := by
        simpa using List.of_mem_filter hx1
      have hc := acceptId_isSome_contains hp
      have : ¬ x ∈ existingMessageIds (phaseAValid env st.musicFiles) := by
        simpa using hc
      exact this hx
    · rw [scanForNewMessages_eq_nil_of_delete (by simpa using hd)]
      simpa [existingMessageIds_nil] using hnodupA

/-- C1 witness: the uniqueness theorem applied to a concrete two-track
playlist with distinct message ids 10 and 11. -/
theorem sync_messageId_unique_witness :
    (existingMessageIds [trackA, trackB]).Nodup ∧
    (existingMessageIds (validateAndSyncByMessageIds quietEnv
      { musicFiles := [trackA, trackB], currentIndex := 0
      , currentPosition := 0 }).1.musicFiles).Nodup :=
  ⟨by decide, sync_messageId_unique quietEnv _ (by decide)⟩

/-- C3, counterexample: in the server Synchronizer pass the newly discovered
batch is appended in scan order (newest message first), not sorted ascending:
from the empty playlist with head id 100 and audio at ids 97 and 95, the
post-sync playlist is [track@97, track@95] with `tracksAdded = 2`, not the
claimed [track@95, track@97]. -/
theorem scan_order_cex :
    (validateAndSyncByMessageIds envScan100 emptyState).2.tracksAdded = 2 ∧
    ((validateAndSyncByMessageIds envScan100 emptyState).1.musicFiles.map
        (fun t => t.messageId)) = [97, 95] ∧
    ((validateAndSyncByMessageIds envScan100 emptyState).1.musicFiles.map
        (fun t => t.messageId)) ≠ [95, 97] := by
  refine ⟨by decide, by decide, by decide⟩

/-- C3, amended: the new-track batch of `scanForNewMessages` is ordered by
`originMessageId` strictly descending (newest post first, the backward scan
order); the discovery scenario therefore yields [track@97, track@95] with
`tracksAdded = 2`. (The ascending sort cited from the spec exists only in
the serverless `enhancedChannelScan` refresh path, not in this pass.) -/
theorem scan_order_descending :
    (∀ (env : Env) (ts : List Track),
      (scanForNewMessages env ts).Pairwise
        (fun a b => b.messageId < a.messageId)) ∧
    (validateAndSyncByMessageIds envScan100 emptyState).2.tracksAdded = 2 ∧
    ((validateAndSyncByMessageIds envScan100 emptyState).1.musicFiles.map
        (fun t => t.messageId)) = [97, 95] := by
  refine ⟨?_, by decide, by decide⟩
  intro env ts
  have hmain : ((scanForNewMessages env ts).map
      (fun t => t.messageId)).Pairwise (fun a b => b < a) := by
    cases hs : env.sendProbe with
    | none =>
      rw [scanForNewMessages_eq_nil_of_sendProbe hs]
      simp
    | some head =>
      by_cases hd : env.deleteProbeOk
      · rw [scanForNewMessages_map_messageId hs hd]
        exact (scanIdsFrom_pairwise _ _).filter _
      · rw [scanForNewMessages_eq_nil_of_delete (by simpa using hd)]
        simp
  exact List.pairwise_map.mp hmain

/-- The two-track state holding trackA (id 10) and trackB (id 11). -/
def stateAB : SyncState :=
  { musicFiles := [trackA, trackB], currentIndex := 0, currentPosition := 0 }

/-- An environment whose Phase-A probe reports a not-found-class error for
message id 10 and a permission error for message id 11. -/
def envProbe : Env :=
  { quietEnv with probeA := fun i =>
      if i = 10 then some "Bad Request: message to forward not found"
      else if i = 11 then some "ETELEGRAM: 403 Forbidden" else none }

/-- C2: Phase-A per-track policy. A track with an empty (falsy) `messageId`
is retained in the post-sync playlist unconditionally; a probe failure in
the not-found/invalid-id class removes the track and records its title in
the outcome's removed list; any other probe failure retains the track and
is surfaced through the outcome's `validationErrors` counter, which counts
exactly the unverifiable tracks. -/
theorem phaseA_track_outcomes (env : Env) (st : SyncState) (t : Track)
    (ht : t ∈ st.musicFiles) :
    (t.messageId = 0 →
      t ∈ (validateAndSyncByMessageIds env st).1.musicFiles) ∧
    (∀ e, t.messageId ≠ 0 → env.probeA t.messageId = some e →
      isNotFoundClass e = true →
        t ∈ phaseARemoved env st.musicFiles ∧
        t.title ∈ (validateAndSyncByMessageIds env st).2.removedTracks ∧
        ¬ t ∈ phaseAValid env st.musicFiles) ∧
    (∀ e, t.messageId ≠ 0 → env.probeA t.messageId = some e →
      isNotFoundClass e = false →
        t ∈ (validateAndSyncByMessageIds env st).1.musicFiles ∧
        1 ≤ (validateAndSyncByMessageIds env st).2.validationErrors) ∧
    ((validateAndSyncByMessageIds env st).2.validationErrors =
      (st.musicFiles.filter
        (fun u => classifyTrack env u == .unverifiable)).length) := by
  refine ⟨?_, ?_, ?_, rfl⟩
  · intro h0
    have hc : classifyTrack env t = .live := by
      unfold classifyTrack
      simp [h0]
    rw [sync_musicFiles]
    exact List.mem_append_left _
      (mem_phaseAValid.mpr ⟨ht, by simp [hc]⟩)
  · intro e h0 he hnf
    have hc : classifyTrack env t = .stale := by
      unfold classifyTrack
      rw [if_neg h0, he]
      simp [hnf]
    refine ⟨List.mem_filter.mpr ⟨ht, by simp [hc]⟩, ?_, ?_⟩
    · rw [sync_removedTitles]
      exact List.mem_map_of_mem _ (List.mem_filter.mpr ⟨ht, by simp [hc]⟩)
    · intro hmem
      exact absurd hc (mem_phaseAValid.mp hmem).2
  · intro e h0 he hnf
    have hc : classifyTrack env t = .unverifiable := by
      unfold classifyTrack
      rw [if_neg h0, he]
      simp [hnf]
    constructor
    · rw [sync_musicFiles]
      exact List.mem_append_left _
        (mem_phaseAValid.mpr ⟨ht, by simp [hc]⟩)
    · rw [sync_validationErrors]
      unfold phaseAErrors
      have : t ∈ st.musicFiles.filter
          (fun u => classifyTrack env u == .unverifiable) :=
        List.mem_filter.mpr ⟨ht, by simp [hc]⟩
      have := List.length_pos_of_mem this
      omega

/-- C2 witness: with probe outcomes "message to forward not found" for
trackA (id 10) and "403 Forbidden" for trackB (id 11), trackA's title lands
in the removed list and trackB stays in the playlist with one validation
error counted. -/
theorem phaseA_track_outcomes_witness :
    trackA ∈ stateAB.musicFiles ∧
    (trackA.title ∈
      (validateAndSyncByMessageIds envProbe stateAB).2.removedTracks ∧
     trackB ∈ (validateAndSyncByMessageIds envProbe stateAB).1.musicFiles ∧
     (validateAndSyncByMessageIds envProbe stateAB).2.validationErrors =
        (stateAB.musicFiles.filter
          (fun u => classifyTrack envProbe u == .unverifiable)).length) :=
  ⟨by decide,
   ((phaseA_track_outcomes envProbe stateAB trackA (by decide)).2.1
      "Bad Request: message to forward not found"
      (by decide) (by decide) (by decide)).2.1,
   ((phaseA_track_outcomes envProbe stateAB trackB (by decide)).2.2.1
      "ETELEGRAM: 403 Forbidden"
      (by decide) (by decide) (by decide)).1,
   (phaseA_track_outcomes envProbe stateAB trackA (by decide)).2.2.2⟩

/-- An environment where the Phase-A probe of id 10 reports not-found and
Phase B raises an exception at the probe-delete step. -/
def envPhaseBBoom : Env :=
  { quietEnv with
    probeA := fun i =>
      if i = 10 then some "Bad Request: message to forward not found"
      else none
  , sendProbe := some 100
  , deleteProbeOk := false }

/-- The one-track state holding trackA (message id 10). -/
def stateA : SyncState :=
  { musicFiles := [trackA], currentIndex := 0, currentPosition := 0 }

/-- C4, counterexample: an exception raised during Phase B (the delete of
the temporary probe message throws) does not abort the reconciliation: the
pass still commits Phase A's removal of trackA — the playlist mutates from
[trackA] to [] — and reports `success = true`, not a failed outcome. -/
theorem sync_exception_commits_cex :
    (validateAndSyncByMessageIds envPhaseBBoom stateA).2.success = true ∧
    (validateAndSyncByMessageIds envPhaseBBoom stateA).1.musicFiles = [] ∧
    stateA.musicFiles ≠ [] := by
  refine ⟨by decide, by decide, by decide⟩

/-- C4, amended: exceptions during Phase B are swallowed inside the scanner
— the scan yields the empty new-track batch, and the reconciliation
completes with `success = true`, committing the Phase-A result (so a pass
whose Phase A removed tracks still mutates the playlist). Only exceptions
escaping the per-track and scan handlers reach the outer failure path. -/
theorem sync_scan_exception_contained (env : Env) (st : SyncState)
    (h : env.sendProbe = none ∨ env.deleteProbeOk = false) :
    (validateAndSyncByMessageIds env st).2.success = true ∧
    (validateAndSyncByMessageIds env st).1.musicFiles =
      phaseAValid env st.musicFiles ∧
    (validateAndSyncByMessageIds env st).2.tracksAdded = 0 := by
  have hscan : scanForNewMessages env (phaseAValid env st.musicFiles) = [] := by
    rcases h with h | h
    · exact scanForNewMessages_eq_nil_of_sendProbe h _
    · exact scanForNewMessages_eq_nil_of_delete h _
  refine ⟨sync_success env st, ?_, ?_⟩
  · rw [sync_musicFiles, hscan, List.append_nil]
  · rw [sync_tracksAdded, hscan]
    rfl

/-- C4 witness: the containment theorem applied to the concrete
probe-delete-throws environment and the one-track state. -/
theorem sync_scan_exception_contained_witness :
    (envPhaseBBoom.sendProbe = none ∨ envPhaseBBoom.deleteProbeOk = false) ∧
    ((validateAndSyncByMessageIds envPhaseBBoom stateA).2.success = true ∧
     (validateAndSyncByMessageIds envPhaseBBoom stateA).1.musicFiles =
       phaseAValid envPhaseBBoom stateA.musicFiles ∧
     (validateAndSyncByMessageIds envPhaseBBoom stateA).2.tracksAdded = 0) :=
  ⟨Or.inr (by decide),
   sync_scan_exception_contained envPhaseBBoom stateA (Or.inr (by decide))⟩

/-- An environment where every Phase-A probe fails with a permission error
and the Phase-B probe send also throws. -/
def envPerm : Env :=
  { quietEnv with
    probeA := fun _ => some "ETELEGRAM: 403 Forbidden: not enough rights" }

/-- C5, counterexample: when the provider reports a permission-denied error
during the sync, the outcome is `success = true` with the track retained and
`validationErrors = 1` — not the failed Sync Outcome the claim requires.
(The playlist is indeed untouched.) -/
theorem sync_permission_success_cex :
    (validateAndSyncByMessageIds envPerm stateA).2.success = true ∧
    (validateAndSyncByMessageIds envPerm stateA).1.musicFiles = [trackA] ∧
    (validateAndSyncByMessageIds envPerm stateA).2.validationErrors = 1 := by
  refine ⟨by decide, by decide, by decide⟩

/-- C5, amended: when every Phase-A probe error is outside the
not-found class (permission, transient, rate limit) and the Phase-B probe
send fails (as it does without access), the sync completes successfully with
the playlist unchanged: `success = true`, nothing removed, nothing added —
permission problems are surfaced only through `validationErrors`, never as a
failed Sync Outcome. -/
theorem sync_permission_retains (env : Env) (st : SyncState)
    (hA : ∀ t ∈ st.musicFiles, ∀ e, env.probeA t.messageId = some e →
      isNotFoundClass e = false)
    (hB : env.sendProbe = none) :
    (validateAndSyncByMessageIds env st).1.musicFiles = st.musicFiles ∧
    (validateAndSyncByMessageIds env st).2.success = true ∧
    (validateAndSyncByMessageIds env st).2.tracksRemoved = 0 ∧
    (validateAndSyncByMessageIds env st).2.tracksAdded = 0 := by
  have hkeep : ∀ t ∈ st.musicFiles, classifyTrack env t ≠ .stale := by
    intro t ht hc
    unfold classifyTrack at hc
    by_cases h0 : t.messageId = 0
    · simp [h0] at hc
    · rw [if_neg h0] at hc
      cases hp : env.probeA t.messageId with
      | none => rw [hp] at hc; simp at hc
      | some e =>
        rw [hp] at hc
        have := hA t ht e hp
        simp [this] at hc
  have hval := phaseAValid_eq_self hkeep
  have hrem := phaseARemoved_eq_nil hkeep
  have hscan : scanForNewMessages env (phaseAValid env st.musicFiles) = [] :=
    scanForNewMessages_eq_nil_of_sendProbe hB _
  refine ⟨?_, sync_success env st, ?_, ?_⟩
  · rw [sync_musicFiles, hscan, List.append_nil, hval]
  · rw [sync_tracksRemoved, hrem]
    rfl
  · rw [sync_tracksAdded, hscan]
    rfl

/-- C5 witness: the retention theorem applied to the concrete
permission-error environment and the one-track state. -/
theorem sync_permission_retains_witness :
    (validateAndSyncByMessageIds envPerm stateA).1.musicFiles =
      stateA.musicFiles ∧
    (validateAndSyncByMessageIds envPerm stateA).2.success = true ∧
    (validateAndSyncByMessageIds envPerm stateA).2.tracksRemoved = 0 ∧
    (validateAndSyncByMessageIds envPerm stateA).2.tracksAdded = 0 :=
  sync_permission_retains envPerm stateA
    (by
      intro t ht e he
      have hse : ("ETELEGRAM: 403 Forbidden: not enough rights" : String) = e := by
        simpa [envPerm, quietEnv] using he
      rw [← hse]
      decide)
    rfl

theorem acceptId_of_mem {env : Env} {ex : List Nat} {i : Nat}
    (hm : i ∈ ex) : acceptId env ex i = none := by
  unfold acceptId
  simp [hm]

/-- Coherence of an environment with a fixed live message set: a message the
Phase-B scanner can forward is live, so the Phase-A probe of that id cannot
fail with a not-found-class error. This is the formal content of "unchanged
remote channel (same live message set)". -/
def EnvCoherent (env : Env) : Prop :=
  ∀ m, (env.forwardB m).isSome →
    ∀ e, env.probeA m = some e → isNotFoundClass e = false

theorem classify_scan_track {env : Env} {ts : List Track} {t : Track}
    (hco : EnvCoherent env) (ht : t ∈ scanForNewMessages env ts) :
    classifyTrack env t ≠ .stale := by
  have hacc := mem_scan_acceptId ht
  have hfwd := acceptId_isSome_forwardB hacc
  intro hc
  unfold classifyTrack at hc
  by_cases h0 : t.messageId = 0
  · simp [h0] at hc
  · rw [if_neg h0] at hc
    cases hp : env.probeA t.messageId with
    | none => rw [hp] at hc; simp at hc
    | some e =>
      rw [hp] at hc
      have := hco t.messageId hfwd e hp
      simp [this] at hc

theorem run2_keeps_all (env : Env) (st : SyncState) (hco : EnvCoherent env) :
    ∀ t ∈ (validateAndSyncByMessageIds env st).1.musicFiles,
      classifyTrack env t ≠ .stale := by
  intro t ht
  rw [sync_musicFiles] at ht
  rcases List.mem_append.mp ht with h | h
  · exact (mem_phaseAValid.mp h).2
  · exact classify_scan_track hco h

theorem run2_scan_nil (env : Env) (st : SyncState) :
    scanForNewMessages env
      (validateAndSyncByMessageIds env st).1.musicFiles = [] := by
  cases hs : env.sendProbe with
  | none => exact scanForNewMessages_eq_nil_of_sendProbe hs _
  | some head =>
    by_cases hd : env.deleteProbeOk
    case neg =>
      exact scanForNewMessages_eq_nil_of_delete (by simpa using hd) _
    case pos =>
      rw [scanForNewMessages_eq_foldl hs hd]
      apply scanFold_eq_of_none
      intro i hi
      by_cases hm : i ∈ existingMessageIds
          (validateAndSyncByMessageIds env st).1.musicFiles
      · exact acceptId_of_mem hm
      · have hnc : ¬ i ∈ existingMessageIds
            (phaseAValid env st.musicFiles) := by
          intro hmem
          apply hm
          rw [sync_musicFiles, existingMessageIds_append]
          exact List.mem_append_left _ hmem
        by_cases hacc : (acceptContent env i).isSome
        · exfalso
          apply hm
          rw [sync_musicFiles, existingMessageIds_append]
          apply List.mem_append_right
          have hp1 : (acceptId env
              (existingMessageIds (phaseAValid env st.musicFiles)) i).isSome := by
            rw [acceptId_of_not_contains (by simpa using hnc)]
            exact hacc
          have hi1 : i ∈ (scanForNewMessages env
              (phaseAValid env st.musicFiles)).map (fun t => t.messageId) := by
            rw [scanForNewMessages_map_messageId hs hd]
            exact List.mem_filter.mpr ⟨hi, by simpa using hp1⟩
          unfold existingMessageIds
          refine List.mem_filter.mpr ⟨hi1, ?_⟩
          have := (mem_scanIdsFrom hi).1
          simp only [decide_eq_true_eq]
          omega
        · have hnone : acceptContent env i = none := by
            cases hac : acceptContent env i with
            | none => rfl
            | some p => rw [hac] at hacc; simp at hacc
          rw [acceptId_of_not_contains (by simpa using hm), hnone]

/-- C6: idempotence of the Synchronizer against an unchanged remote channel.
Running the pass twice with the same coherent environment yields
`tracksAdded = 0` and `tracksRemoved = 0` on the second run and leaves the
track sequence (hence the order) exactly as after the first run. -/
theorem sync_idempotent (env : Env) (st : SyncState)
    (hco : EnvCoherent env) :
    (validateAndSyncByMessageIds env
      (validateAndSyncByMessageIds env st).1).2.tracksAdded = 0 ∧
    (validateAndSyncByMessageIds env
      (validateAndSyncByMessageIds env st).1).2.tracksRemoved = 0 ∧
    (validateAndSyncByMessageIds env
      (validateAndSyncByMessageIds env st).1).1.musicFiles =
      (validateAndSyncByMessageIds env st).1.musicFiles := by
  have hkeep := run2_keeps_all env st hco
  have hval := phaseAValid_eq_self hkeep
  have hrem := phaseARemoved_eq_nil hkeep
  have hscan : scanForNewMessages env
      (phaseAValid env (validateAndSyncByMessageIds env st).1.musicFiles) =
        [] := by
    rw [hval]
    exact run2_scan_nil env st
  refine ⟨?_, ?_, ?_⟩
  · rw [sync_tracksAdded, hscan]
    rfl
  · rw [sync_tracksRemoved, hrem]
    rfl
  · rw [sync_musicFiles, hscan, List.append_nil, hval]

/-- An environment with head id 3 and one live audio post at id 2; the
Phase-A probe of the live id 2 fails with a target-chat error (not in the
not-found class), as the real forward-to-'@username' probe does. -/
def envIdem : Env :=
  { probeA := fun i =>
      if i = 2 then some "chat not found"
      else some "Bad Request: message to forward not found"
  , sendProbe := some 3
  , deleteProbeOk := true
  , forwardB := fun i => if i = 2 then some sampleFwdF else none
  , getFileLink := fun f => if f = "F" then some "http://x" else none
  , storedData := none }

/-- C6 witness: the idempotence theorem applied to the concrete one-post
channel starting from the empty playlist (the first pass discovers the
track at id 2, the second pass is a no-op). -/
theorem sync_idempotent_witness :
    (validateAndSyncByMessageIds envIdem
      (validateAndSyncByMessageIds envIdem emptyState).1).2.tracksAdded = 0 ∧
    (validateAndSyncByMessageIds envIdem
      (validateAndSyncByMessageIds envIdem emptyState).1).2.tracksRemoved
        = 0 ∧
    (validateAndSyncByMessageIds envIdem
      (validateAndSyncByMessageIds envIdem emptyState).1).1.musicFiles =
      (validateAndSyncByMessageIds envIdem emptyState).1.musicFiles :=
  sync_idempotent envIdem emptyState
    (by
      intro m hm e he
      by_cases h2 : m = 2
      · subst h2
        have hse : ("chat not found" : String) = e := by
          simpa [envIdem] using he
        rw [← hse]
        decide
      · exfalso
        simp [envIdem, h2] at hm)

theorem sync_currentIndex (env : Env) (st : SyncState) :
    (validateAndSyncByMessageIds env st).1.currentIndex =
      if st.currentIndex ≥
          ((validateAndSyncByMessageIds env st).1.musicFiles.length : Int)
        then 0 else st.currentIndex := rfl

theorem nextServer_inv {st : SyncState} (h : IndexInv st) :
    IndexInv (nextServer st).1 := by
  unfold nextServer
  by_cases hl : 0 < st.musicFiles.length
  · rw [if_pos hl]
    unfold IndexInv
    left
    have hlen : (0 : Int) < (st.musicFiles.length : Int) := by
      exact_mod_cast hl
    refine ⟨?_, ?_⟩
    · apply Int.tmod_nonneg
      unfold IndexInv at h
      rcases h with ⟨h1, _⟩ | ⟨_, h2⟩ <;> omega
    · exact Int.tmod_lt_of_pos _ hlen
  · rw [if_neg hl]
    exact h

theorem prevServer_inv {st : SyncState} (h : IndexInv st) :
    IndexInv (prevServer st).1 := by
  unfold prevServer
  by_cases hl : 0 < st.musicFiles.length
  · rw [if_pos hl]
    unfold IndexInv
    dsimp only
    left
    have hlen : (0 : Int) < (st.musicFiles.length : Int) := by
      exact_mod_cast hl
    unfold IndexInv at h
    rcases h with ⟨h1, h2⟩ | ⟨hnil, h2⟩
    · by_cases hp : 0 < st.currentIndex
      · rw [if_pos hp]
        constructor <;> omega
      · rw [if_neg hp]
        constructor <;> omega
    · rw [hnil] at hl
      simp at hl
  · rw [if_neg hl]
    exact h

theorem playServer_inv {env : Env} {st : SyncState} {idx : Option Int}
    (h : IndexInv st) : IndexInv (playServer env st idx).1 := by
  unfold playServer
  by_cases hc : ((0 < st.musicFiles.length) && jsGe idx 0 &&
      jsLt idx (st.musicFiles.length : Int)) = true
  · rw [if_pos hc]
    cases idx with
    | none => simp [jsGe] at hc
    | some i =>
      simp only [jsGe, jsLt, Bool.and_eq_true, decide_eq_true_eq] at hc
      obtain ⟨⟨hl, hge⟩, hlt⟩ := hc
      unfold IndexInv
      left
      simp only [List.length_set, Option.getD_some]
      exact ⟨hge, hlt⟩
  · rw [if_neg hc]
    exact h

theorem syncOp_inv {env : Env} {st : SyncState} (h : IndexInv st) :
    IndexInv (validateAndSyncByMessageIds env st).1 := by
  have hidx := sync_currentIndex env st
  by_cases hge : st.currentIndex ≥
      ((validateAndSyncByMessageIds env st).1.musicFiles.length : Int)
  · rw [if_pos hge] at hidx
    by_cases hl : 0 < (validateAndSyncByMessageIds env st).1.musicFiles.length
    · unfold IndexInv
      left
      rw [hidx]
      constructor
      · omega
      · exact_mod_cast hl
    · unfold IndexInv
      right
      have : (validateAndSyncByMessageIds env st).1.musicFiles.length = 0 := by
        omega
      exact ⟨List.length_eq_zero.mp this, hidx⟩
  · rw [if_neg hge] at hidx
    unfold IndexInv
    left
    unfold IndexInv at h
    rw [hidx]
    rcases h with ⟨h1, h2⟩ | ⟨hnil, h2⟩
    · constructor
      · exact h1
      · omega
    · constructor
      · omega
      · omega

theorem stepOp_inv {st : SyncState} (h : IndexInv st) (op : PlayerOp) :
    IndexInv (stepOp st op) := by
  cases op with
  | next => exact nextServer_inv h
  | previous => exact prevServer_inv h
  | selectIndex env idx => exact playServer_inv h
  | sync env => exact syncOp_inv h

theorem runOps_inv : ∀ (ops : List PlayerOp) (st : SyncState),
    IndexInv st → IndexInv (runOps st ops)
  | [], _, h => h
  | op :: ops, st, h => runOps_inv ops (stepOp st op) (stepOp_inv h op)

/-- C7: for every sequence of next/previous/selectIndex/sync-merge
operations, the bounded-index property (`0 ≤ currentIndex < length`, or
`currentIndex = 0` on the empty playlist) holds after every step; and,
starting from a non-negative cursor, the post-sync merge resets
`currentIndex` to 0 exactly when it falls outside `[0, length)` of the
merged playlist, keeping it unchanged otherwise. -/
theorem playback_index_bounded (st : SyncState) (ops : List PlayerOp)
    (h : IndexInv st) :
    IndexInv (runOps st ops) ∧
    (∀ (env : Env) (s : SyncState), 0 ≤ s.currentIndex →
      ((s.currentIndex ≥
          ((validateAndSyncByMessageIds env s).1.musicFiles.length : Int) →
        (validateAndSyncByMessageIds env s).1.currentIndex = 0) ∧
       (s.currentIndex <
          ((validateAndSyncByMessageIds env s).1.musicFiles.length : Int) →
        (validateAndSyncByMessageIds env s).1.currentIndex =
          s.currentIndex))) := by
  refine ⟨runOps_inv ops st h, ?_⟩
  intro env s hpos
  have hidx := sync_currentIndex env s
  constructor
  · intro hge
    rw [if_pos hge] at hidx
    exact hidx
  · intro hlt
    rw [if_neg (by omega)] at hidx
    exact hidx

/-- C7 witness: the bounded-index theorem applied to the two-track state
and a concrete operation sequence mixing all four operations. -/
theorem playback_index_bounded_witness :
    IndexInv (runOps stateAB
      [.next, .previous, .selectIndex quietEnv (some 1), .sync quietEnv,
        .next]) ∧
    (0 ≤ stateAB.currentIndex →
      (stateAB.currentIndex ≥
          ((validateAndSyncByMessageIds quietEnv
            stateAB).1.musicFiles.length : Int) →
        (validateAndSyncByMessageIds quietEnv stateAB).1.currentIndex = 0)) :=
  ⟨(playback_index_bounded stateAB _ (Or.inl (by decide))).1,
   fun hp hge =>
    ((playback_index_bounded stateAB [] (Or.inl (by decide))).2 quietEnv
      stateAB hp).1 hge⟩

theorem apiBootstrap_of_ne (env : Env) {st : SyncState}
    (h : st.musicFiles ≠ []) : apiBootstrap env st = st := by
  unfold apiBootstrap
  rw [if_neg]
  simpa using h

/-- A third cached track, discovered at message id 12. -/
def trackC : Track :=
  { title := "C", url := "uC", duration := "3:20", fileId := "fC"
  , performer := "P", messageId := 12 }

/-- The three-track state of the select-out-of-range scenario. -/
def stateABC : SyncState :=
  { musicFiles := [trackA, trackB, trackC], currentIndex := 0
  , currentPosition := 0 }

/-- C8: `selectIndex(i)` bounds checking, for the server handler and for the
serverless handler on an in-memory playlist. An index outside `[0, length)`
is rejected with the 400 response carrying `maxIndex = length - 1` and the
whole state (hence `currentIndex` and `currentPosition`) is unchanged; an
index inside the range succeeds, setting `currentIndex = i` and
`currentPosition = 0`. -/
theorem selectIndex_bounds (env : Env) (st : SyncState) (i : Int) :
    (¬ (0 ≤ i ∧ i < (st.musicFiles.length : Int)) →
      playServer env st (some i) =
        (st, .invalidIndex ((st.musicFiles.length : Int) - 1))) ∧
    ((0 ≤ i ∧ i < (st.musicFiles.length : Int)) →
      (playServer env st (some i)).1.currentIndex = i ∧
      (playServer env st (some i)).1.currentPosition = 0 ∧
      (playServer env st (some i)).2 =
        .ok i (patchUrl env (st.musicFiles.getD i.toNat default)) 0) ∧
    (st.musicFiles ≠ [] →
      ((¬ (0 ≤ i ∧ i < (st.musicFiles.length : Int)) →
        apiSetTrack env st (some i) =
          (st, .invalidIndex ((st.musicFiles.length : Int) - 1))) ∧
       ((0 ≤ i ∧ i < (st.musicFiles.length : Int)) →
        (apiSetTrack env st (some i)).1.currentIndex = i ∧
        (apiSetTrack env st (some i)).1.currentPosition = 0))) := by
  refine ⟨?_, ?_, ?_⟩
  · intro hout
    have hguard : ((0 < st.musicFiles.length) && jsGe (some i) 0 &&
        jsLt (some i) (st.musicFiles.length : Int)) = false := by
      simp only [jsGe, jsLt, Bool.and_eq_false_iff, decide_eq_false_iff_not,
        Bool.and_eq_true, decide_eq_true_eq]
      omega
    unfold playServer
    rw [hguard]
    rfl
  · intro hin
    have hguard : ((0 < st.musicFiles.length) && jsGe (some i) 0 &&
        jsLt (some i) (st.musicFiles.length : Int)) = true := by
      simp only [jsGe, jsLt, Bool.and_eq_true, decide_eq_true_eq]
      omega
    unfold playServer
    rw [hguard]
    dsimp only
    exact ⟨rfl, rfl, rfl⟩
  · intro hne
    have hb := apiBootstrap_of_ne env hne
    constructor
    · intro hout
      have hguard : (jsGe (some i) 0 &&
          jsLt (some i) (st.musicFiles.length : Int)) = false := by
        simp only [jsGe, jsLt, Bool.and_eq_false_iff,
          decide_eq_false_iff_not]
        omega
      unfold apiSetTrack
      rw [hb]
      dsimp only
      rw [hguard]
      rfl
    · intro hin
      have hguard : (jsGe (some i) 0 &&
          jsLt (some i) (st.musicFiles.length : Int)) = true := by
        simp only [jsGe, jsLt, Bool.and_eq_true, decide_eq_true_eq]
        omega
      unfold apiSetTrack
      rw [hb]
      dsimp only
      rw [hguard]
      exact ⟨rfl, rfl⟩

/-- C8 witness: `selectIndex(5)` on the three-track playlist fails with
`maxIndex = 2` leaving the state untouched, and `selectIndex(1)` succeeds
with `currentIndex = 1`, `currentPosition = 0`. -/
theorem selectIndex_bounds_witness :
    (playServer quietEnv stateABC (some 5) =
      (stateABC, .invalidIndex ((stateABC.musicFiles.length : Int) - 1)) ∧
     (stateABC.musicFiles.length : Int) - 1 = 2) ∧
    ((playServer quietEnv stateABC (some 1)).1.currentIndex = 1 ∧
     (playServer quietEnv stateABC (some 1)).1.currentPosition = 0) :=
  ⟨⟨(selectIndex_bounds quietEnv stateABC 5).1 (by decide), by decide⟩,
   ((selectIndex_bounds quietEnv stateABC 1).2.1 (by decide)).1,
   ((selectIndex_bounds quietEnv stateABC 1).2.1 (by decide)).2.1⟩

/-- C9, counterexample: on the empty playlist the server `/api/next` handler
is a no-op but answers `{success: true, index: 0}` — the ordinary success
shape, carrying no error at all — not a "no tracks" signal; only the
serverless variant answers with the 404 no-tracks response. -/
theorem next_empty_no_signal_cex :
    nextServer emptyState = (emptyState, { success := true, index := 0 }) ∧
    (apiNext quietEnv emptyState).2 = .noTracks := by
  refine ⟨by decide, by decide⟩

/-- C9, amended: `next()` is a no-op on the empty playlist, but only the
serverless variant signals "no tracks" (its 404 response); the server
variant responds `success = true` with the unchanged index. On a non-empty
playlist both set `currentIndex = (currentIndex + 1) mod length` (JS
truncated remainder) and reset `currentPosition` to 0. -/
theorem next_semantics (env : Env) (st : SyncState) :
    (st.musicFiles = [] →
      nextServer st = (st, { success := true, index := st.currentIndex })) ∧
    (st.musicFiles ≠ [] →
      (nextServer st).1.currentIndex =
        (st.currentIndex + 1).tmod (st.musicFiles.length : Int) ∧
      (nextServer st).1.currentPosition = 0 ∧
      (nextServer st).1.musicFiles = st.musicFiles ∧
      (nextServer st).2.success = true) ∧
    ((apiBootstrap env st).musicFiles = [] →
      apiNext env st = (apiBootstrap env st, .noTracks)) ∧
    ((apiBootstrap env st).musicFiles ≠ [] →
      (apiNext env st).1.currentIndex =
        ((apiBootstrap env st).currentIndex + 1).tmod
          ((apiBootstrap env st).musicFiles.length : Int) ∧
      (apiNext env st).1.currentPosition = 0) := by
  refine ⟨?_, ?_, ?_, ?_⟩
  · intro hnil
    unfold nextServer
    rw [if_neg (by simp [hnil])]
  · intro hne
    have hl : 0 < st.musicFiles.length := List.length_pos.mpr hne
    unfold nextServer
    rw [if_pos hl]
    dsimp only
    exact ⟨rfl, rfl, rfl, rfl⟩
  · intro hnil
    unfold apiNext
    rw [if_neg (by simp [hnil])]
  · intro hne
    have hl : 0 < (apiBootstrap env st).musicFiles.length :=
      List.length_pos.mpr hne
    unfold apiNext
    rw [if_pos hl]
    dsimp only
    exact ⟨rfl, rfl⟩

/-- C9 witness: the semantics theorem applied at the empty state (both
variants) and at the two-track state, where `next()` advances 0 to 1. -/
theorem next_semantics_witness :
    nextServer emptyState =
      (emptyState, { success := true, index := emptyState.currentIndex }) ∧
    ((nextServer stateAB).1.currentIndex =
      (stateAB.currentIndex + 1).tmod (stateAB.musicFiles.length : Int) ∧
     (stateAB.currentIndex + 1).tmod (stateAB.musicFiles.length : Int)
       = 1) ∧
    apiNext quietEnv emptyState =
      (apiBootstrap quietEnv emptyState, .noTracks) :=
  ⟨(next_semantics quietEnv emptyState).1 rfl,
   ⟨((next_semantics quietEnv stateAB).2.1 (by decide)).1, by decide⟩,
   (next_semantics quietEnv emptyState).2.2.1 (by decide)⟩

/-- An environment whose persistent store holds one track with a stored
cursor of 5. -/
def envStored : Env := { quietEnv with storedData := some ([trackA], 5) }

/-- C10, counterexample: a NaN index string is rejected with the 400
response, but in the serverless handler the empty-playlist storage bootstrap
runs first: with a stored record `([trackA], 5)` the rejected request still
changes `currentIndex` from 0 to 5 (and loads the playlist), refuting
"currentIndex ... unchanged" as stated for every request. -/
theorem nan_select_state_change_cex :
    parseIntJs "abc" = none ∧
    (apiSetTrackStr envStored emptyState "abc").2 = .invalidIndex 0 ∧
    (apiSetTrackStr envStored emptyState "abc").1.currentIndex = 5 ∧
    emptyState.currentIndex = 0 := by
  refine ⟨by decide, by decide, by decide, by decide⟩

/-- C10, amended: for every index string that parses to NaN the bounds
comparisons are all false, so both select-track handlers are total and
reject with the 400 invalid-index response without indexing the playlist;
the server handler leaves the state exactly unchanged, the serverless
handler leaves it at the result of its empty-playlist storage bootstrap
(which may load a stored playlist and cursor), and `currentPosition` is
unchanged in both. -/
theorem nan_select_rejected (env : Env) (st : SyncState) (s : String)
    (h : parseIntJs s = none) :
    playServerStr env st s =
      (st, .invalidIndex ((st.musicFiles.length : Int) - 1)) ∧
    (apiSetTrackStr env st s).1 = apiBootstrap env st ∧
    (apiSetTrackStr env st s).2 =
      .invalidIndex (((apiBootstrap env st).musicFiles.length : Int) - 1) ∧
    (apiBootstrap env st).currentPosition = st.currentPosition := by
  have hpos : (apiBootstrap env st).currentPosition = st.currentPosition := by
    unfold apiBootstrap
    by_cases he : st.musicFiles.isEmpty
    · rw [if_pos he]
      unfold initializeMusic
      cases env.storedData with
      | none => rfl
      | some p =>
        cases p with
        | mk files idx =>
          dsimp only
          by_cases hl : 0 < files.length
          · rw [if_pos hl]
          · rw [if_neg hl]
    · rw [if_neg he]
  refine ⟨?_, ?_, ?_, hpos⟩
  · unfold playServerStr playServer
    rw [h]
    have hguard : ((0 < st.musicFiles.length) && jsGe none 0 &&
        jsLt none (st.musicFiles.length : Int)) = false := by
      simp [jsGe, jsLt]
    rw [hguard]
    rfl
  · unfold apiSetTrackStr apiSetTrack
    rw [h]
    dsimp only
    have hguard : (jsGe none 0 &&
        jsLt none ((apiBootstrap env st).musicFiles.length : Int)) =
          false := by
      simp [jsGe, jsLt]
    rw [hguard]
    rfl
  · unfold apiSetTrackStr apiSetTrack
    rw [h]
    dsimp only
    have hguard : (jsGe none 0 &&
        jsLt none ((apiBootstrap env st).musicFiles.length : Int)) =
          false := by
      simp [jsGe, jsLt]
    rw [hguard]
    rfl

/-- C10 witness: the NaN-rejection theorem applied to a concrete
non-numeric index string on the two-track state. -/
theorem nan_select_rejected_witness :
    parseIntJs "notanumber" = none ∧
    (playServerStr quietEnv stateAB "notanumber" =
      (stateAB, .invalidIndex ((stateAB.musicFiles.length : Int) - 1)) ∧
     (apiSetTrackStr quietEnv stateAB "notanumber").1 =
       apiBootstrap quietEnv stateAB ∧
     (apiSetTrackStr quietEnv stateAB "notanumber").2 =
       .invalidIndex
         (((apiBootstrap quietEnv stateAB).musicFiles.length : Int) - 1) ∧
     (apiBootstrap quietEnv stateAB).currentPosition =
       stateAB.currentPosition) :=
  ⟨by decide, nan_select_rejected quietEnv stateAB "notanumber" (by decide)⟩

end MusicBot
